import Mathlib

set_option maxHeartbeats 1000000

/-!
Shallow embedding of the IMDb scraper notebook (src/imdb-scraper.ipynb) and
proofs about it.  Pure Python helpers become Lean functions; exceptions become
`Except PyError`; the BeautifulSoup document tree is abstracted to the results
of the exact selector queries the scraper performs; the network and the file
system are explicit parameters/state.
-/

/-- The Python exception kinds the scraper can raise. The batch driver catches
all of them alike, so only the distinctions matter, not the payloads. -/
inductive PyError where
  | keyError
  | attributeError
  | typeError
  | valueError
  | indexError
  | jsonDecodeError
  | fetchError
  deriving DecidableEq

/-- A decoded JSON value, as produced by json.loads. Numbers are modelled as
rationals (covering both Python int and float as they occur here). -/
inductive JVal where
  | str : String → JVal
  | num : Rat → JVal
  | list : List JVal → JVal
  | obj : List (String × JVal) → JVal

/-- Number denoted by a run of decimal digit characters, most significant first. -/
def digitsVal (l : List Char) : Nat :=
  l.foldl (fun acc c => 10 * acc + (c.toNat - 48)) 0

/-- Python-style whitespace stripping from both ends, on character lists. -/
def stripChars (l : List Char) : List Char :=
  ((l.dropWhile Char.isWhitespace).reverse.dropWhile Char.isWhitespace).reverse

/-- Model of Python str.strip(). -/
def pyStrip (s : String) : String := ⟨stripChars s.data⟩

/-- Model of Python int(text) on the texts this program feeds it: optional
surrounding whitespace then a nonempty run of decimal digits; anything else
raises ValueError. (Signed input never occurs at any call site.) -/
def pyIntStr (s : String) : Except PyError Int :=
  let t := stripChars s.data
  if t ≠ [] ∧ t.all Char.isDigit then .ok (digitsVal t) else .error .valueError

/-- Model of Python str.split(sep) for a single-character separator, on
character lists. Always returns one more component than separator occurrences. -/
def pySplitChar (c : Char) : List Char → List (List Char)
  | [] => [[]]
  | x :: xs =>
    let r := pySplitChar c xs
    if x = c then [] :: r else (x :: r.headD []) :: r.tail

/-- Model of Python float(text) on the texts this program feeds it: a digit run,
or a digit run with one interior decimal point; anything else raises ValueError. -/
def pyFloatStr (s : String) : Except PyError Rat :=
  let t := stripChars s.data
  if t ≠ [] ∧ t.all Char.isDigit then .ok ((digitsVal t : Nat) : Rat)
  else
    match pySplitChar '.' t with
    | [ip, fp] =>
      if ip ++ fp ≠ [] ∧ (ip ++ fp).all Char.isDigit then
        .ok ((digitsVal ip : Nat) + ((digitsVal fp : Nat) : Rat) / ((10 : Rat) ^ fp.length))
      else .error .valueError
    | _ => .error .valueError

/-- Model of Python float(v) for a decoded JSON value. -/
def pyFloat : JVal → Except PyError Rat
  | .num q => .ok q
  | .str s => pyFloatStr s
  | _ => .error .typeError

/-- Does hay start with needle (character lists). -/
def startsWithChars : List Char → List Char → Bool
  | [], _ => true
  | _ :: _, [] => false
  | a :: as, b :: bs => a == b && startsWithChars as bs

/-- Model of Python substring membership (needle in hay), on character lists. -/
def containsSub (needle : List Char) : List Char → Bool
  | [] => startsWithChars needle []
  | x :: xs => startsWithChars needle (x :: xs) || containsSub needle xs

/-- Model of Python substring membership (needle in hay) on strings. -/
def pyIn (needle hay : String) : Bool := containsSub needle.data hay.data

/-- Model of Python text.split(sep)[0] for a nonempty separator: the part of the
text before the first occurrence of sep, the whole text when sep never occurs. -/
def splitHead (sep : List Char) : List Char → List Char
  | [] => []
  | x :: xs => if startsWithChars sep (x :: xs) then [] else x :: splitHead sep xs

/-- Python rendering of a number: integers without a decimal point. Only the
digits of nonnegative integers matter at any call site here. -/
def ratStr (q : Rat) : String :=
  if q.den = 1 then toString q.num else toString q

mutual
/-- Model of Python repr() for decoded JSON values: strings quoted, lists
bracketed with comma-space separators, mappings braced. -/
def pyRepr : JVal → String
  | .str s => "\x27" ++ s ++ "\x27"
  | .num q => ratStr q
  | .list l => "[" ++ pyReprList l ++ "]"
  | .obj kvs => "\x7b" ++ pyReprObj kvs ++ "\x7d"

/-- Comma-space separated reprs of a list's elements. -/
def pyReprList : List JVal → String
  | [] => ""
  | [v] => pyRepr v
  | v :: vs => pyRepr v ++ ", " ++ pyReprList vs

/-- Comma-space separated key: value reprs of a mapping's entries. -/
def pyReprObj : List (String × JVal) → String
  | [] => ""
  | [(k, v)] => "\x27" ++ k ++ "\x27: " ++ pyRepr v
  | (k, v) :: kvs => "\x27" ++ k ++ "\x27: " ++ pyRepr v ++ ", " ++ pyReprObj kvs
end

/-- Model of Python str(): the identity on strings, repr on everything else. -/
def pyStr : JVal → String
  | .str s => s
  | v => pyRepr v

/-- Python d[k] on a decoded JSON value: the value when present, KeyError when
the key is missing from a mapping, TypeError when subscripting a non-mapping. -/
def jGet (v : JVal) (k : String) : Except PyError JVal :=
  match v with
  | .obj kvs =>
    match kvs.lookup k with
    | some x => .ok x
    | none => .error .keyError
  | _ => .error .typeError

/-- Python membership test (k in d) paired with d[k]: some value iff present. -/
def jFind (v : JVal) (k : String) : Option JVal :=
  match v with
  | .obj kvs => kvs.lookup k
  | _ => none

/-- The MPAA assignment of imdb_scrape: json_dict['contentRating'] when the key
is present, otherwise the dict's initial ''. -/
def jContentRating (j : JVal) : JVal :=
  match jFind j "contentRating" with
  | some v => v
  | none => JVal.str ""

/-- The outcomes of the exact BeautifulSoup queries imdb_scrape performs on one
fetched title page. Each field is one selector lookup; `none` models a lookup
that finds nothing (Python None / empty result). -/
structure Doc where
  /-- script type=application/ld+json elements, in document order; each entry is
  the decode outcome of that element's text (`none` = json.loads raises). -/
  ldJsonBlocks : List (Option JVal)
  /-- span id=titleYear: found? → its a child found? → that child's text. -/
  titleYearSpan : Option (Option String)
  /-- first time element: found? → its datetime attribute present? → its value. -/
  timeTag : Option (Option String)
  /-- div class=title_wrapper: found? → the texts of its a descendants in order. -/
  titleWrapper : Option (List String)
  /-- div class=metacriticScore: found? → its span child found? → its text. -/
  metacriticDiv : Option (Option String)
  /-- div class=titleReviewBarItem titleReviewbarItemBorder elements, in order;
  for each, the texts of its a descendants in order. -/
  reviewBarItems : List (List String)
  /-- div class=summary_text: found? → its text. -/
  summaryDiv : Option String
  /-- div id=titleStoryLine: found? → div child? → p child? → span child? → text. -/
  storyLineDiv : Option (Option (Option (Option String)))

/-- The imdb_info_dict built by imdb_scrape. Defaults are the dict's initial
values; fields assigned a converted number hold JVal.num, fields assigned a raw
payload value hold it verbatim. -/
structure MovieInfo where
  tconst : String
  title : JVal := .str ""
  release_year : JVal := .str ""
  release_date : String := ""
  MPAA : JVal := .str ""
  genre : JVal := .list []
  runtime : JVal := .str ""
  poster_url : JVal := .str ""
  plot_short : String := ""
  plot_long : String := ""
  imdb_rating : JVal := .str ""
  num_imdb_votes : JVal := .str ""
  metacritic : JVal := .str ""
  num_user_reviews : JVal := .str ""
  num_critic_reviews : JVal := .str ""

/-- Embedding of to_numeric: re.sub drops every non-digit character, then int()
or float() parses the remainder; the original string comes back when num_type
names neither type. -/
def to_numeric (string : String) (num_type : String := "int") : Except PyError JVal :=
  if num_type = "float" then do
    let x ← pyFloatStr ⟨string.data.filter Char.isDigit⟩
    pure (JVal.num x)
  else if num_type = "int" then do
    let x ← pyIntStr ⟨string.data.filter Char.isDigit⟩
    pure (JVal.num (x : Rat))
  else
    pure (JVal.str string)

/-- json.loads(str(soup.findAll('script', type=application/ld+json)[0].text)):
IndexError when no such element exists, a decode error when its text is not
valid JSON. -/
def getPayload (soup : Doc) : Except PyError JVal :=
  match soup.ldJsonBlocks.head? with
  | none => .error .indexError
  | some none => .error .jsonDecodeError
  | some (some j) => .ok j

/-- int(soup.find('span', id=titleYear).a.text): AttributeError when the span or
its nested anchor is absent (attribute access on None). -/
def getReleaseYear (soup : Doc) : Except PyError Int :=
  match soup.titleYearSpan with
  | none => .error .attributeError
  | some none => .error .attributeError
  | some (some t) => pyIntStr t

/-- to_numeric(soup.find('time')['datetime']): TypeError when no time element
exists (None is not subscriptable), KeyError when the attribute is missing. -/
def getRuntime (soup : Doc) : Except PyError JVal :=
  match soup.timeTag with
  | none => .error .typeError
  | some none => .error .keyError
  | some (some dt) => to_numeric dt

/-- soup.find('div', class=title_wrapper).findAll('a')[-1].text.split(' (')[0]:
AttributeError when the wrapper div is absent, IndexError when it holds no
anchors. -/
def getReleaseDate (soup : Doc) : Except PyError String :=
  match soup.titleWrapper with
  | none => .error .attributeError
  | some links =>
    match links.getLast? with
    | none => .error .indexError
    | some t => .ok (List.asString (splitHead " (".data t.data))

/-- The metacritic block: guarded by an explicit None test on the div, so an
absent container leaves the field at ''; a present container must hold a span
with an int()-able text. -/
def getMetacritic (soup : Doc) : Except PyError JVal :=
  match soup.metacriticDiv with
  | none => .ok (.str "")
  | some none => .error .attributeError
  | some (some t) => do
    let n ← pyIntStr t
    pure (JVal.num (n : Rat))

/-- The review-count bar: an absent container (findAll returns []) leaves both
counts at ''; otherwise the first item's anchors feed to_numeric, index 1
(critic) before index 0 (user), each only when present. Returns the pair
(num_critic_reviews, num_user_reviews). -/
def getReviewCounts (soup : Doc) : Except PyError (JVal × JVal) :=
  match soup.reviewBarItems with
  | [] => .ok (.str "", .str "")
  | reviews :: _ =>
    match reviews with
    | [] => .ok (.str "", .str "")
    | [t0] => do
      let u ← to_numeric t0
      pure (.str "", u)
    | t0 :: t1 :: _ => do
      let c ← to_numeric t1
      let u ← to_numeric t0
      pure (c, u)

/-- soup.find('div', class=summary_text).text.strip(), blanked when it contains
the 'Add a Plot' placeholder anywhere ('in' is substring membership). -/
def getPlotShort (soup : Doc) : Except PyError String :=
  match soup.summaryDiv with
  | none => .error .attributeError
  | some t =>
    let s := pyStrip t
    if pyIn "Add a Plot" s then .ok "" else .ok s

/-- The story-line block: attribute access walks find → .div → .p, so an absent
container or missing div child raises; only .p being None is guarded (field
stays ''); a present p must hold a span whose text is taken stripped. -/
def getPlotLong (soup : Doc) : Except PyError String :=
  match soup.storyLineDiv with
  | none => .error .attributeError
  | some none => .error .attributeError
  | some (some none) => .ok ""
  | some (some (some none)) => .error .attributeError
  | some (some (some (some t))) => .ok (pyStrip t)

/-- Embedding of the body of imdb_scrape after the page fetch, in source order:
payload fields first, then the markup lookups, finally the assembled dict.
Console printing, the pacing sleep and poster saving are side channels with no
effect on the returned dict and are not modelled. -/
def scrapeDoc (imdb_id : String) (soup : Doc) : Except PyError MovieInfo := do
  let json_dict ← getPayload soup
  let name ← jGet json_dict "name"
  let image ← jGet json_dict "image"
  let year ← getReleaseYear soup
  let rt ← getRuntime soup
  let rdate ← getReleaseDate soup
  let genre ← jGet json_dict "genre"
  let agg ← jGet json_dict "aggregateRating"
  let rv ← jGet agg "ratingValue"
  let rating ← pyFloat rv
  let votes ← jGet agg "ratingCount"
  let meta ← getMetacritic soup
  let revs ← getReviewCounts soup
  let ps ← getPlotShort soup
  let pl ← getPlotLong soup
  .ok { tconst := imdb_id, title := name, MPAA := jContentRating json_dict,
        poster_url := image, release_year := JVal.num (year : Rat), runtime := rt,
        release_date := rdate, genre := genre, imdb_rating := JVal.num rating,
        num_imdb_votes := votes, metacritic := meta,
        num_user_reviews := revs.2, num_critic_reviews := revs.1,
        plot_short := ps, plot_long := pl }

/-- Embedding of imdb_scrape against an abstracted network: world maps an IMDb
id to the outcome of fetching and souping its page (an error models a requests
failure). -/
def imdb_scrape (world : String → Except PyError Doc) (imdb_id : String) :
    Except PyError MovieInfo :=
  (world imdb_id).bind (scrapeDoc imdb_id)

/-- img_url.split('.')[-1]: the extension savePoster derives from the URL. -/
def posterExt (img_url : String) : String :=
  (((pySplitChar '.' img_url.data).map List.asString).getLast?).getD ""

/-- The target path f-string posters/imdb_id.ext of savePoster. -/
def posterPath (imdb_id img_url : String) : String :=
  "posters/" ++ imdb_id ++ "." ++ posterExt img_url

/-- Explicit file-system-and-network state for savePoster: the set of existing
file paths and a counter of image fetches performed so far. -/
structure PosterState where
  files : List String
  fetches : Nat
  deriving DecidableEq

/-- Embedding of savePoster: skip (returning False) without fetching when the
target path already exists, otherwise fetch once, write the file and return
True. -/
def savePoster (imdb_id img_url : String) (st : PosterState) : Bool × PosterState :=
  let path := posterPath imdb_id img_url
  if st.files.contains path then (false, st)
  else (true, { files := path :: st.files, fetches := st.fetches + 1 })

/-- Embedding of concatenate_list_data: fold str(element) onto an initially
empty result string. -/
def concatenate_list_data (my_list : List JVal) : String :=
  my_list.foldl (fun result element => result ++ pyStr element) ""

/-- Modelled behavior of pandas DataFrame(...).to_csv on an object column: each
cell is rendered with Python str(). This is the genre cell of one output row. -/
def genreCsvCell (rec : MovieInfo) : String := pyStr rec.genre

/-- State owned by the batch driver cells: the accumulating record list, the
failure list (failed_list), the fails counter, and — as instrumentation for the
no-retry property — the sequence of imdb_scrape invocations performed. -/
structure BatchState where
  annual_movie_list : List MovieInfo
  failed_list : List String
  fails : Nat
  calls : List String

/-- One iteration of the driver's for-loop over tconst values: try imdb_scrape,
append the record on success; on any exception append the key to failed_list
and bump the fails counter. -/
def driverStep (scrape : String → Except PyError MovieInfo) (st : BatchState)
    (tconst : String) : BatchState :=
  match scrape tconst with
  | .ok rec => { st with annual_movie_list := st.annual_movie_list ++ [rec],
                         calls := st.calls ++ [tconst] }
  | .error _ => { st with failed_list := st.failed_list ++ [tconst],
                          fails := st.fails + 1,
                          calls := st.calls ++ [tconst] }

/-- The whole driver loop over a year's key list. -/
def runBatch (scrape : String → Except PyError MovieInfo) (keys : List String)
    (st : BatchState) : BatchState :=
  keys.foldl (driverStep scrape) st

/-- The driver cell's state right before its loop: empty record list, freshly
initialized failed_list, zero fails. -/
def batchStart : BatchState := ⟨[], [], 0, []⟩

/-- One driver run as the single-year cell performs it. -/
def batchRun (world : String → Except PyError Doc) (keys : List String) : BatchState :=
  runBatch (imdb_scrape world) keys batchStart

/-- A fixture payload mirroring the notebook's Jurassic Park sample output. -/
def jpPayload : JVal := .obj
  [("name", .str "Jurassic Park"),
   ("contentRating", .str "PG-13"),
   ("image", .str "https://m/media-amazon/images/MV5BMjM2MDgxMDg0Nl.jpg"),
   ("genre", .list [.str "Action", .str "Adventure", .str "Sci-Fi", .str "Thriller"]),
   ("aggregateRating", .obj [("ratingValue", .num (81 / 10 : Rat)), ("ratingCount", .num 820733)])]

/-- A fixture document on which every lookup of imdb_scrape succeeds. -/
def jpDoc : Doc :=
  { ldJsonBlocks := [some jpPayload],
    titleYearSpan := some (some "1993"),
    timeTag := some (some "PT127M"),
    titleWrapper := some ["Jurassic Park", "11 June 1993 (USA)"],
    metacriticDiv := some (some "68"),
    reviewBarItems := [["1,085 user", "355 critic"]],
    summaryDiv := some "A pragmatic paleontologist protects a couple of kids.",
    storyLineDiv := some (some (some (some "Dinosaurs roam freely over the island."))) }

/-- The record imdb_scrape assembles from the fixture document. -/
def jpRec : MovieInfo :=
  { tconst := "tt0107290", title := .str "Jurassic Park", MPAA := .str "PG-13",
    poster_url := .str "https://m/media-amazon/images/MV5BMjM2MDgxMDg0Nl.jpg",
    release_year := .num 1993, runtime := .num 127,
    release_date := "11 June 1993",
    genre := .list [.str "Action", .str "Adventure", .str "Sci-Fi", .str "Thriller"],
    imdb_rating := .num (81 / 10 : Rat), num_imdb_votes := .num 820733,
    metacritic := .num 68, num_user_reviews := .num 1085,
    num_critic_reviews := .num 355,
    plot_short := "A pragmatic paleontologist protects a couple of kids.",
    plot_long := "Dinosaurs roam freely over the island." }

/-- The fixture document with the time element removed (runtime markup absent). -/
def noTimeDoc : Doc := { jpDoc with timeTag := none }

/-- A payload that decodes fine but whose aggregateRating lacks ratingCount. -/
def noCountPayload : JVal := .obj
  [("name", .str "Avalanche"),
   ("image", .str "av.png"),
   ("genre", .list [.str "Drama"]),
   ("aggregateRating", .obj [("ratingValue", .num 6)])]

/-- The fixture document carrying noCountPayload. -/
def noCountDoc : Doc := { jpDoc with ldJsonBlocks := [some noCountPayload] }

/-- A payload with no contentRating key but complete rating data. -/
def noCRPayload : JVal := .obj
  [("name", .str "Sunrise"),
   ("image", .str "su.png"),
   ("genre", .list [.str "Romance"]),
   ("aggregateRating", .obj [("ratingValue", .num 8), ("ratingCount", .num 100)])]

/-- The fixture document carrying noCRPayload. -/
def noCRDoc : Doc := { jpDoc with ldJsonBlocks := [some noCRPayload] }

/-- The record scraped from noCRDoc: MPAA left at the initial ''. -/
def noCRRec : MovieInfo :=
  { jpRec with
    title := .str "Sunrise",
    MPAA := .str "",
    poster_url := .str "su.png",
    genre := .list [.str "Romance"],
    imdb_rating := .num 8,
    num_imdb_votes := .num 100 }

/-- The fixture document with the review-count bar absent. -/
def noRevDoc : Doc := { jpDoc with reviewBarItems := [] }

/-- The fixture document whose short-plot text is the bare placeholder. -/
def phDoc : Doc := { jpDoc with summaryDiv := some "  Add a Plot  " }

/-- The fixture document whose short-plot text merely contains the placeholder. -/
def phMidDoc : Doc := { jpDoc with summaryDiv := some "Great battle. Add a Plot twist." }

/-- The record scraped from phDoc or phMidDoc: the short plot is blanked. -/
def blankPlotRec : MovieInfo := { jpRec with plot_short := "" }

/-- A three-key batch world where exactly the middle key fails to fetch. -/
def c8World : String → Except PyError Doc :=
  fun t => if t = "tt0000002" then .error .fetchError else .ok jpDoc

/-- The key list driven through c8World. -/
def c8Keys : List String := ["tt0000001", "tt0000002", "tt0000003"]

theorem bindE_eq_ok {α β : Type} {x : Except PyError α} {f : α → Except PyError β}
    {b : β} : (x >>= f) = Except.ok b ↔ ∃ a, x = Except.ok a ∧ f a = Except.ok b := by
  cases x with
  | error e => simp [Bind.bind, Except.bind]
  | ok a => simp [Bind.bind, Except.bind]

/-- Inversion for a successful scrape: every stage succeeded and the record is
exactly the assembled dict. -/
theorem scrapeDoc_ok_inv {k : String} {d : Doc} {rec : MovieInfo}
    (h : scrapeDoc k d = Except.ok rec) :
    ∃ j name image year rt rdate genre agg rv rating votes meta revs ps pl,
      getPayload d = Except.ok j ∧
      jGet j "name" = Except.ok name ∧
      jGet j "image" = Except.ok image ∧
      getReleaseYear d = Except.ok year ∧
      getRuntime d = Except.ok rt ∧
      getReleaseDate d = Except.ok rdate ∧
      jGet j "genre" = Except.ok genre ∧
      jGet j "aggregateRating" = Except.ok agg ∧
      jGet agg "ratingValue" = Except.ok rv ∧
      pyFloat rv = Except.ok rating ∧
      jGet agg "ratingCount" = Except.ok votes ∧
      getMetacritic d = Except.ok meta ∧
      getReviewCounts d = Except.ok revs ∧
      getPlotShort d = Except.ok ps ∧
      getPlotLong d = Except.ok pl ∧
      rec = { tconst := k, title := name, MPAA := jContentRating j,
              poster_url := image, release_year := JVal.num (year : Rat),
              runtime := rt, release_date := rdate, genre := genre,
              imdb_rating := JVal.num rating, num_imdb_votes := votes,
              metacritic := meta, num_user_reviews := revs.2,
              num_critic_reviews := revs.1, plot_short := ps, plot_long := pl } := by
  unfold scrapeDoc at h
  simp only [bindE_eq_ok] at h
  obtain ⟨j, hj, name, hn, image, him, year, hy, rt, hrt, rdate, hrd, genre, hg,
    agg, hagg, rv, hrv, rating, hrat, votes, hv, meta, hm, revs, hrev, ps, hps,
    pl, hpl, hrec⟩ := h
  exact ⟨j, name, image, year, rt, rdate, genre, agg, rv, rating, votes, meta,
    revs, ps, pl, hj, hn, him, hy, hrt, hrd, hg, hagg, hrv, hrat, hv, hm, hrev,
    hps, hpl, (Except.ok.inj hrec).symm⟩

theorem startsWithChars_iff {n : List Char} : ∀ {h : List Char},
    startsWithChars n h = true ↔ ∃ t, n ++ t = h := by
  induction n with
  | nil => intro h; simp [startsWithChars]
  | cons a as ih =>
    intro h
    cases h with
    | nil => simp [startsWithChars]
    | cons b bs =>
      simp only [startsWithChars, Bool.and_eq_true, beq_iff_eq, ih,
        List.cons_append, List.cons.injEq]
      constructor
      · rintro ⟨rfl, t, ht⟩; exact ⟨t, rfl, ht⟩
      · rintro ⟨t, rfl, ht⟩; exact ⟨rfl, t, ht⟩

theorem containsSub_iff {n : List Char} : ∀ {h : List Char},
    containsSub n h = true ↔ ∃ s t, s ++ n ++ t = h := by
  intro h
  induction h with
  | nil =>
    rw [show containsSub n [] = startsWithChars n [] from rfl, startsWithChars_iff]
    constructor
    · rintro ⟨t, ht⟩; exact ⟨[], t, ht⟩
    · rintro ⟨s, t, ht⟩
      rcases List.append_eq_nil.mp ht with ⟨h1, h2⟩
      rcases List.append_eq_nil.mp h1 with ⟨rfl, rfl⟩
      exact ⟨[], by simp⟩
  | cons x xs ih =>
    rw [show containsSub n (x :: xs) =
      (startsWithChars n (x :: xs) || containsSub n xs) from rfl]
    simp only [Bool.or_eq_true, startsWithChars_iff, ih]
    constructor
    · rintro (⟨t, ht⟩ | ⟨s, t, ht⟩)
      · exact ⟨[], t, by simpa using ht⟩
      · exact ⟨x :: s, t, by simp [ht]⟩
    · rintro ⟨s, t, ht⟩
      cases s with
      | nil => exact Or.inl ⟨t, by simpa using ht⟩
      | cons y s' =>
        obtain ⟨rfl, h2⟩ : y = x ∧ s' ++ n ++ t = xs := by simpa using ht
        exact Or.inr ⟨s', t, h2⟩

theorem infix_dropWhile_of_head {p : Char → Bool} {a : Char} {m : List Char}
    (ha : p a = false) : ∀ l : List Char, (∃ s t, s ++ (a :: m) ++ t = l) →
    ∃ s t, s ++ (a :: m) ++ t = l.dropWhile p := by
  intro l
  induction l with
  | nil => rintro ⟨s, t, ht⟩; simp at ht
  | cons x xs ih =>
    rintro ⟨s, t, ht⟩
    rw [List.dropWhile_cons]
    by_cases hx : p x = true
    · simp only [hx, if_true]
      cases s with
      | nil =>
        obtain ⟨h1, h2⟩ : a = x ∧ m ++ t = xs := by simpa using ht
        rw [h1, hx] at ha
        cases ha
      | cons y s' =>
        obtain ⟨rfl, h2⟩ : y = x ∧ s' ++ (a :: m) ++ t = xs := by simpa using ht
        exact ih ⟨s', t, h2⟩
    · rw [if_neg hx]
      exact ⟨s, t, ht⟩

theorem exists_infix_reverse {n l : List Char} (h : ∃ s t, s ++ n ++ t = l) :
    ∃ s t, s ++ n.reverse ++ t = l.reverse := by
  obtain ⟨s, t, rfl⟩ := h
  exact ⟨t.reverse, s.reverse, by simp⟩

/-- An occurrence of a substring whose first and last characters are not
whitespace survives Python str.strip(). -/
theorem containsSub_stripChars {a b : Char} {mid l : List Char}
    (ha : a.isWhitespace = false) (hb : b.isWhitespace = false)
    (h : containsSub (a :: (mid ++ [b])) l = true) :
    containsSub (a :: (mid ++ [b])) (stripChars l) = true := by
  rw [containsSub_iff] at h ⊢
  have h1 := infix_dropWhile_of_head ha _ h
  have h2 := exists_infix_reverse h1
  rw [show (a :: (mid ++ [b])).reverse = b :: (mid.reverse ++ [a]) by simp] at h2
  have h3 := infix_dropWhile_of_head hb _ h2
  have h4 := exists_infix_reverse h3
  rw [show (b :: (mid.reverse ++ [a])).reverse = a :: (mid ++ [b]) by simp] at h4
  exact h4

theorem pySplitChar_ne_nil {c : Char} : ∀ l, pySplitChar c l ≠ [] := by
  intro l
  cases l with
  | nil => simp [pySplitChar]
  | cons x xs =>
    simp only [pySplitChar]
    split <;> simp

theorem pySplitChar_no_sep {c : Char} : ∀ {l : List Char}, (∀ x ∈ l, x ≠ c) →
    pySplitChar c l = [l] := by
  intro l
  induction l with
  | nil => intro _; rfl
  | cons x xs ih =>
    intro h
    have hx : ¬x = c := h x (by simp)
    rw [show pySplitChar c (x :: xs) =
      (if x = c then [] :: pySplitChar c xs
       else (x :: (pySplitChar c xs).headD []) :: (pySplitChar c xs).tail) from rfl]
    rw [if_neg hx, ih (fun y hy => h y (by simp [hy]))]
    rfl

theorem pySplitChar_length_of_mem {c : Char} : ∀ {l : List Char}, c ∈ l →
    2 ≤ (pySplitChar c l).length := by
  intro l
  induction l with
  | nil => intro h; cases h
  | cons x xs ih =>
    intro h
    rw [show pySplitChar c (x :: xs) =
      (if x = c then [] :: pySplitChar c xs
       else (x :: (pySplitChar c xs).headD []) :: (pySplitChar c xs).tail) from rfl]
    by_cases hx : x = c
    · rw [if_pos hx]
      have h1 : pySplitChar c xs ≠ [] := pySplitChar_ne_nil xs
      have h2 : 1 ≤ (pySplitChar c xs).length := by
        cases h3 : pySplitChar c xs with
        | nil => exact absurd h3 h1
        | cons y ys => simp
      simpa using Nat.succ_le_succ h2
    · rw [if_neg hx]
      have hmem : c ∈ xs := by
        rcases List.mem_cons.mp h with h4 | h4
        · exact absurd h4.symm hx
        · exact h4
      have h2 := ih hmem
      cases h3 : pySplitChar c xs with
      | nil => exact absurd h3 (pySplitChar_ne_nil xs)
      | cons y ys =>
        rw [h3] at h2
        simpa using h2

theorem pySplitChar_getLast? {c : Char} {b : List Char} (hb : ∀ x ∈ b, x ≠ c) :
    ∀ a : List Char, (pySplitChar c (a ++ c :: b)).getLast? = some b := by
  intro a
  induction a with
  | nil =>
    rw [List.nil_append,
      show pySplitChar c (c :: b) =
        (if c = c then [] :: pySplitChar c b
         else (c :: (pySplitChar c b).headD []) :: (pySplitChar c b).tail) from rfl,
      if_pos rfl, pySplitChar_no_sep hb]
    rfl
  | cons y a' ih =>
    rw [List.cons_append,
      show pySplitChar c (y :: (a' ++ c :: b)) =
        (if y = c then [] :: pySplitChar c (a' ++ c :: b)
         else (y :: (pySplitChar c (a' ++ c :: b)).headD []) ::
           (pySplitChar c (a' ++ c :: b)).tail) from rfl]
    have hmemc : c ∈ a' ++ c :: b := List.mem_append.mpr (Or.inr (by simp))
    have hlen := pySplitChar_length_of_mem hmemc
    by_cases hy : y = c
    · rw [if_pos hy]
      cases h3 : pySplitChar c (a' ++ c :: b) with
      | nil => exact absurd h3 (pySplitChar_ne_nil _)
      | cons z zs =>
        rw [h3] at ih
        rw [List.getLast?_cons_cons]
        exact ih
    · rw [if_neg hy]
      cases h3 : pySplitChar c (a' ++ c :: b) with
      | nil => exact absurd h3 (pySplitChar_ne_nil _)
      | cons z zs =>
        rw [h3] at ih hlen
        cases zs with
        | nil => simp at hlen
        | cons u zs' =>
          rw [List.getLast?_cons_cons] at ih
          simpa [List.getLast?_cons_cons] using ih

theorem getLast?_map_asString : ∀ r : List (List Char),
    (r.map List.asString).getLast? = r.getLast?.map List.asString := by
  intro r
  induction r with
  | nil => rfl
  | cons x xs ih =>
    cases xs with
    | nil => rfl
    | cons y ys =>
      simpa [List.getLast?_cons_cons] using ih

/-- split('.')[-1] really is the substring after the last dot: whenever the URL
decomposes as pre ++ "." ++ suf with no dot in suf, the derived extension is suf. -/
theorem posterExt_after_last_dot {pre suf : String} (hsuf : ∀ x ∈ suf.data, x ≠ '.') :
    posterExt (pre ++ "." ++ suf) = suf := by
  unfold posterExt
  have hdata : (pre ++ "." ++ suf).data = pre.data ++ '.' :: suf.data := by
    rw [show ∀ s t : String, (s ++ t).data = s.data ++ t.data from fun s t => rfl,
      show ∀ s t : String, (s ++ t).data = s.data ++ t.data from fun s t => rfl]
    simp
  rw [hdata, getLast?_map_asString, pySplitChar_getLast? hsuf]
  rfl

/-- A scraped record always carries the key it was scraped for. -/
theorem tconst_of_scrape_ok {world : String → Except PyError Doc} {t : String}
    {rec : MovieInfo} (h : imdb_scrape world t = Except.ok rec) : rec.tconst = t := by
  unfold imdb_scrape at h
  cases hw : world t with
  | error e => rw [hw] at h; cases h
  | ok d =>
    rw [hw] at h
    obtain ⟨_, _, _, _, _, _, _, _, _, _, _, _, _, _, _, _, _, _, _, _, _, _, _,
      _, _, _, _, _, _, _, hrec⟩ := scrapeDoc_ok_inv h
    rw [hrec]

theorem runBatch_calls (scrape : String → Except PyError MovieInfo) :
    ∀ (keys : List String) (st : BatchState),
    (runBatch scrape keys st).calls = st.calls ++ keys := by
  intro keys
  induction keys with
  | nil => intro st; simp [runBatch]
  | cons k ks ih =>
    intro st
    rw [show runBatch scrape (k :: ks) st = runBatch scrape ks (driverStep scrape st k)
      from rfl, ih]
    unfold driverStep
    cases scrape k <;> simp

theorem runBatch_failed (scrape : String → Except PyError MovieInfo) :
    ∀ (keys : List String) (st : BatchState),
    (runBatch scrape keys st).failed_list =
      st.failed_list ++ keys.filter (fun t => !(scrape t).isOk) := by
  intro keys
  induction keys with
  | nil => intro st; simp [runBatch]
  | cons k ks ih =>
    intro st
    rw [show runBatch scrape (k :: ks) st = runBatch scrape ks (driverStep scrape st k)
      from rfl, ih]
    unfold driverStep
    cases hk : scrape k <;> simp [List.filter_cons, Except.isOk, Except.toBool, hk]

theorem runBatch_annual (scrape : String → Except PyError MovieInfo) :
    ∀ (keys : List String) (st : BatchState),
    (runBatch scrape keys st).annual_movie_list =
      st.annual_movie_list ++ keys.filterMap (fun t => (scrape t).toOption) := by
  intro keys
  induction keys with
  | nil => intro st; simp [runBatch]
  | cons k ks ih =>
    intro st
    rw [show runBatch scrape (k :: ks) st = runBatch scrape ks (driverStep scrape st k)
      from rfl, ih]
    unfold driverStep
    cases hk : scrape k <;> simp [List.filterMap_cons, Except.toOption, hk]

theorem runBatch_sizes (scrape : String → Except PyError MovieInfo) :
    ∀ (keys : List String) (st : BatchState),
    (runBatch scrape keys st).annual_movie_list.length +
      (runBatch scrape keys st).failed_list.length =
    st.annual_movie_list.length + st.failed_list.length + keys.length := by
  intro keys
  induction keys with
  | nil => intro st; simp [runBatch]
  | cons k ks ih =>
    intro st
    rw [show runBatch scrape (k :: ks) st = runBatch scrape ks (driverStep scrape st k)
      from rfl, ih]
    unfold driverStep
    cases hk : scrape k <;> simp <;> omega

/-- C2: the Normalizer strips every non-digit character and parses the digit
run: "1,085 reviews" → 1085, "127 min" → 127, "8.1" as float → 81.0 (the
decimal point itself is stripped), and empty input fails with the
normalization error. -/
theorem claim_c2_normalizer :
    to_numeric "1,085 reviews" = Except.ok (JVal.num 1085) ∧
    to_numeric "127 min" = Except.ok (JVal.num 127) ∧
    to_numeric "8.1" "float" = Except.ok (JVal.num 81) ∧
    to_numeric "" = Except.error PyError.valueError :=
  ⟨rfl, rfl, rfl, rfl⟩

/-- C5: whenever the payload decodes and assembly succeeds, the returned record
carries exactly the input key in its tconst field. -/
theorem claim_c5_key (k : String) (d : Doc) (j : JVal) (rec : MovieInfo)
    (hp : getPayload d = Except.ok j) (hok : scrapeDoc k d = Except.ok rec) :
    rec.tconst = k := by
  obtain ⟨j', name, image, year, rt, rdate, genre, agg, rv, rating, votes, meta,
    revs, ps, pl, hj, hn, him, hy, hrt, hrd, hg, hagg, hrv, hrat, hv, hm, hrev,
    hps, hpl, hrec⟩ := scrapeDoc_ok_inv hok
  rw [hrec]

/-- C5 witness: on the fixture page the assembled record's key is the input key. -/
theorem claim_c5_key_witness : jpRec.tconst = "tt0107290" :=
  claim_c5_key "tt0107290" jpDoc jpPayload jpRec rfl rfl

/-- C9: when the short-plot container's trimmed text is exactly the placeholder
'Add a Plot', the assembled record's plot_short is the empty string. -/
theorem claim_c9_placeholder (k : String) (d : Doc) (t : String) (rec : MovieInfo)
    (ht : d.summaryDiv = some t) (hs : pyStrip t = "Add a Plot")
    (hok : scrapeDoc k d = Except.ok rec) : rec.plot_short = "" := by
  obtain ⟨j, name, image, year, rt, rdate, genre, agg, rv, rating, votes, meta,
    revs, ps, pl, hj, hn, him, hy, hrt, hrd, hg, hagg, hrv, hrat, hv, hm, hrev,
    hps, hpl, hrec⟩ := scrapeDoc_ok_inv hok
  have hcond : pyIn "Add a Plot" (pyStrip t) = true := by
    rw [hs]
    decide
  simp only [getPlotShort, ht, hcond, if_true] at hps
  rw [hrec]
  exact (Except.ok.inj hps).symm

/-- C9 witness: a fixture whose summary text trims to the bare placeholder
yields a record with an empty short plot. -/
theorem claim_c9_placeholder_witness : blankPlotRec.plot_short = "" :=
  claim_c9_placeholder "tt0107290" phDoc "  Add a Plot  " blankPlotRec rfl rfl rfl

/-- C10: the placeholder check is a substring test, so any summary text merely
containing 'Add a Plot' — even inside genuine plot text — blanks plot_short. -/
theorem claim_c10_substring (k : String) (d : Doc) (t : String) (rec : MovieInfo)
    (ht : d.summaryDiv = some t) (hc : pyIn "Add a Plot" t = true)
    (hok : scrapeDoc k d = Except.ok rec) : rec.plot_short = "" := by
  obtain ⟨j, name, image, year, rt, rdate, genre, agg, rv, rating, votes, meta,
    revs, ps, pl, hj, hn, him, hy, hrt, hrd, hg, hagg, hrv, hrat, hv, hm, hrev,
    hps, hpl, hrec⟩ := scrapeDoc_ok_inv hok
  have hcond : pyIn "Add a Plot" (pyStrip t) = true := by
    have h0 : containsSub ('A' :: ("dd a Plo".data ++ ['t'])) t.data = true := by
      rw [pyIn] at hc
      rw [show "Add a Plot".data = 'A' :: ("dd a Plo".data ++ ['t']) from rfl] at hc
      exact hc
    have h1 := containsSub_stripChars (by decide) (by decide) h0
    rw [pyIn, show (pyStrip t).data = stripChars t.data from rfl,
      show "Add a Plot".data = 'A' :: ("dd a Plo".data ++ ['t']) from rfl]
    exact h1
  simp only [getPlotShort, ht, hcond, if_true] at hps
  rw [hrec]
  exact (Except.ok.inj hps).symm

/-- C10 witness: a summary containing the placeholder mid-sentence still yields
an empty short plot. -/
theorem claim_c10_substring_witness : blankPlotRec.plot_short.length = 0 :=
  congrArg String.length
    (claim_c10_substring "tt0107290" phMidDoc "Great battle. Add a Plot twist."
      blankPlotRec rfl rfl rfl)

/-- C6: an absent review bar leaves both counts unset with no error; a present
bar coerces the first link to the user count and, when a second link exists,
the second to the critic count, each independently; the assembled record takes
exactly these two values. -/
theorem claim_c6_reviews (d : Doc) :
    (d.reviewBarItems = [] → getReviewCounts d = Except.ok (.str "", .str "")) ∧
    (∀ t0 rest, d.reviewBarItems = [t0] :: rest →
      ∀ u, to_numeric t0 = Except.ok u →
        getReviewCounts d = Except.ok (.str "", u)) ∧
    (∀ t0 t1 ts rest, d.reviewBarItems = (t0 :: t1 :: ts) :: rest →
      ∀ u c, to_numeric t0 = Except.ok u → to_numeric t1 = Except.ok c →
        getReviewCounts d = Except.ok (c, u)) ∧
    (∀ k rec, scrapeDoc k d = Except.ok rec →
      ∃ p, getReviewCounts d = Except.ok p ∧
        rec.num_critic_reviews = p.1 ∧ rec.num_user_reviews = p.2) := by
  refine ⟨?_, ?_, ?_, ?_⟩
  · intro h
    simp [getReviewCounts, h]
  · intro t0 rest h u hu
    simp [getReviewCounts, h, hu, Bind.bind, Except.bind, Pure.pure, Except.pure]
  · intro t0 t1 ts rest h u c hu hc
    simp [getReviewCounts, h, hu, hc, Bind.bind, Except.bind, Pure.pure, Except.pure]
  · intro k rec hok
    obtain ⟨j, name, image, year, rt, rdate, genre, agg, rv, rating, votes, meta,
      revs, ps, pl, hj, hn, him, hy, hrt, hrd, hg, hagg, hrv, hrat, hv, hm, hrev,
      hps, hpl, hrec⟩ := scrapeDoc_ok_inv hok
    exact ⟨revs, hrev, by rw [hrec], by rw [hrec]⟩

/-- C6 witness: a fixture with no review bar yields unset counts and no error. -/
theorem claim_c6_reviews_witness :
    getReviewCounts noRevDoc = Except.ok (.str "", .str "") :=
  (claim_c6_reviews noRevDoc).1 rfl

/-- C1 counterexample: on a page whose payload decodes fine but whose time
element is absent — runtime being one of the claim's optional markup fields —
assembly raises a record-level error instead of returning a record with the
remaining fields. -/
theorem claim_c1_counterexample :
    scrapeDoc "tt0107290" noTimeDoc = Except.error PyError.typeError := rfl

/-- C1 amended: only the critic-score and review-bar lookups (and a missing p
inside the story-line block) are swallowed into unset fields; absence of the
time element, the title-header container, the short-plot container, the
story-line container, or the year anchor each aborts the record. -/
theorem claim_c1_amended (k : String) (d : Doc) :
    (∀ rec, scrapeDoc k d = Except.ok rec →
      (d.metacriticDiv = none → rec.metacritic = .str "") ∧
      (d.reviewBarItems = [] →
        rec.num_user_reviews = .str "" ∧ rec.num_critic_reviews = .str "") ∧
      (d.storyLineDiv = some (some none) → rec.plot_long = "")) ∧
    (d.timeTag = none → ∀ rec, scrapeDoc k d ≠ Except.ok rec) ∧
    (d.titleWrapper = none → ∀ rec, scrapeDoc k d ≠ Except.ok rec) ∧
    (d.summaryDiv = none → ∀ rec, scrapeDoc k d ≠ Except.ok rec) ∧
    (d.storyLineDiv = none → ∀ rec, scrapeDoc k d ≠ Except.ok rec) ∧
    (d.titleYearSpan = none → ∀ rec, scrapeDoc k d ≠ Except.ok rec) := by
  refine ⟨?_, ?_, ?_, ?_, ?_, ?_⟩
  · intro rec hok
    obtain ⟨j, name, image, year, rt, rdate, genre, agg, rv, rating, votes, meta,
      revs, ps, pl, hj, hn, him, hy, hrt, hrd, hg, hagg, hrv, hrat, hv, hm, hrev,
      hps, hpl, hrec⟩ := scrapeDoc_ok_inv hok
    refine ⟨?_, ?_, ?_⟩
    · intro hmc
      rw [show getMetacritic d = Except.ok (.str "") by simp [getMetacritic, hmc]]
        at hm
      obtain rfl := Except.ok.inj hm
      rw [hrec]
    · intro hrb
      rw [show getReviewCounts d = Except.ok (.str "", .str "") by
        simp [getReviewCounts, hrb]] at hrev
      obtain rfl := Except.ok.inj hrev
      rw [hrec]
      exact ⟨rfl, rfl⟩
    · intro hsl
      rw [show getPlotLong d = Except.ok "" by simp [getPlotLong, hsl]] at hpl
      obtain rfl := Except.ok.inj hpl
      rw [hrec]
  · intro hT rec hok
    obtain ⟨j, name, image, year, rt, rdate, genre, agg, rv, rating, votes, meta,
      revs, ps, pl, hj, hn, him, hy, hrt, hrd, hg, hagg, hrv, hrat, hv, hm, hrev,
      hps, hpl, hrec⟩ := scrapeDoc_ok_inv hok
    simp [getRuntime, hT] at hrt
  · intro hW rec hok
    obtain ⟨j, name, image, year, rt, rdate, genre, agg, rv, rating, votes, meta,
      revs, ps, pl, hj, hn, him, hy, hrt, hrd, hg, hagg, hrv, hrat, hv, hm, hrev,
      hps, hpl, hrec⟩ := scrapeDoc_ok_inv hok
    simp [getReleaseDate, hW] at hrd
  · intro hS rec hok
    obtain ⟨j, name, image, year, rt, rdate, genre, agg, rv, rating, votes, meta,
      revs, ps, pl, hj, hn, him, hy, hrt, hrd, hg, hagg, hrv, hrat, hv, hm, hrev,
      hps, hpl, hrec⟩ := scrapeDoc_ok_inv hok
    simp [getPlotShort, hS] at hps
  · intro hSL rec hok
    obtain ⟨j, name, image, year, rt, rdate, genre, agg, rv, rating, votes, meta,
      revs, ps, pl, hj, hn, him, hy, hrt, hrd, hg, hagg, hrv, hrat, hv, hm, hrev,
      hps, hpl, hrec⟩ := scrapeDoc_ok_inv hok
    simp [getPlotLong, hSL] at hpl
  · intro hY rec hok
    obtain ⟨j, name, image, year, rt, rdate, genre, agg, rv, rating, votes, meta,
      revs, ps, pl, hj, hn, him, hy, hrt, hrd, hg, hagg, hrv, hrat, hv, hm, hrev,
      hps, hpl, hrec⟩ := scrapeDoc_ok_inv hok
    simp [getReleaseYear, hY] at hy

/-- C1 amended witness: with the time element removed, no record comes back. -/
theorem claim_c1_amended_witness :
    scrapeDoc "tt0107290" noTimeDoc ≠ Except.ok jpRec :=
  (claim_c1_amended "tt0107290" noTimeDoc).2.1 rfl jpRec

/-- C3 counterexample: a payload that decodes fine but lacks
aggregateRating.ratingCount makes assembly raise a KeyError instead of leaving
the vote count unset. -/
theorem claim_c3_counterexample :
    getPayload noCountDoc = Except.ok noCountPayload ∧
    (jGet noCountPayload "aggregateRating").map (fun a => jFind a "ratingCount") =
      Except.ok none ∧
    scrapeDoc "tt0000005" noCountDoc = Except.error PyError.keyError :=
  ⟨rfl, rfl, rfl⟩

/-- C3 amended: within a successfully decoded payload only contentRating is a
tolerated absence (MPAA stays unset); a returned record forces the payload to
contain aggregateRating with both ratingValue and ratingCount, so decoding
alone is not sufficient to get past the payload-derived fields. -/
theorem claim_c3_amended (k : String) (d : Doc) (j : JVal) (rec : MovieInfo)
    (hj : getPayload d = Except.ok j) (hok : scrapeDoc k d = Except.ok rec) :
    (jFind j "contentRating" = none → rec.MPAA = .str "") ∧
    ∃ agg rv votes, jGet j "aggregateRating" = Except.ok agg ∧
      jGet agg "ratingValue" = Except.ok rv ∧
      jGet agg "ratingCount" = Except.ok votes := by
  obtain ⟨j', name, image, year, rt, rdate, genre, agg, rv, rating, votes, meta,
    revs, ps, pl, hj', hn, him, hy, hrt, hrd, hg, hagg, hrv, hrat, hv, hm, hrev,
    hps, hpl, hrec⟩ := scrapeDoc_ok_inv hok
  rw [hj] at hj'
  obtain rfl := Except.ok.inj hj'
  constructor
  · intro hcr
    rw [hrec]
    simp [jContentRating, hcr]
  · exact ⟨agg, rv, votes, hagg, hrv, hv⟩

/-- C3 amended witness: scraping a fixture without contentRating leaves MPAA at
the initial empty string. -/
theorem claim_c3_amended_witness : noCRRec.MPAA = .str "" :=
  (claim_c3_amended "tt0107290" noCRDoc noCRPayload noCRRec rfl rfl).1 rfl

/-- C4 counterexample: the driver writes the raw genre list through pandas, so
the output cell is the bracketed, quoted, comma-separated Python rendering of
the list — not the separator-free concatenation that the (never invoked) helper
concatenate_list_data would produce. -/
theorem claim_c4_counterexample :
    scrapeDoc "tt0107290" jpDoc = Except.ok jpRec ∧
    jpRec.genre =
      JVal.list [.str "Action", .str "Adventure", .str "Sci-Fi", .str "Thriller"] ∧
    genreCsvCell jpRec ≠ concatenate_list_data
      [.str "Action", .str "Adventure", .str "Sci-Fi", .str "Thriller"] :=
  ⟨rfl, rfl, by decide⟩

/-- C4 amended: concatenate_list_data does return the order-preserving,
separator-free concatenation of its elements, but the batch artifact's genres
cell is instead the Python string rendering of the record's raw genre list
(brackets, quotes and comma-space separators), because the helper is never
applied on the way to to_csv. -/
theorem claim_c4_amended (k : String) (d : Doc) (rec : MovieInfo) (l : List JVal)
    (hok : scrapeDoc k d = Except.ok rec) (hg : rec.genre = JVal.list l) :
    genreCsvCell rec = "[" ++ pyReprList l ++ "]" ∧
    concatenate_list_data l = String.join (l.map pyStr) := by
  constructor
  · rw [genreCsvCell, hg]
    rfl
  · rw [concatenate_list_data,
      show String.join (l.map pyStr) =
        (l.map pyStr).foldl (fun r s => r ++ s) "" from rfl, List.foldl_map]

/-- C4 amended witness: the fixture record's genres cell is the bracketed
rendering of its four genres. -/
theorem claim_c4_amended_witness :
    genreCsvCell jpRec = "[" ++ pyReprList
      [.str "Action", .str "Adventure", .str "Sci-Fi", .str "Thriller"] ++ "]" :=
  (claim_c4_amended "tt0107290" jpDoc jpRec
    [.str "Action", .str "Adventure", .str "Sci-Fi", .str "Thriller"] rfl rfl).1

/-- C7: starting from a state without the target file, the first call fetches
once, writes posters/key.ext and returns True; an immediate second call with
the same key and URL returns False and leaves the state — including the fetch
count — untouched; and the extension really is the substring after the last
dot of the URL. -/
theorem claim_c7_save_poster (imdb_id img_url : String) (st : PosterState)
    (h : st.files.contains (posterPath imdb_id img_url) = false) :
    savePoster imdb_id img_url st =
      (true, ⟨posterPath imdb_id img_url :: st.files, st.fetches + 1⟩) ∧
    savePoster imdb_id img_url ⟨posterPath imdb_id img_url :: st.files, st.fetches + 1⟩ =
      (false, ⟨posterPath imdb_id img_url :: st.files, st.fetches + 1⟩) ∧
    (∀ pre suf : String, img_url = pre ++ "." ++ suf →
      (∀ x ∈ suf.data, x ≠ '.') → posterExt img_url = suf) := by
  refine ⟨?_, ?_, ?_⟩
  · have h' : posterPath imdb_id img_url ∉ st.files := by simpa using h
    simp [savePoster, h']
  · rw [savePoster]
    simp [List.contains_cons]
  · rintro pre suf rfl hs
    exact posterExt_after_last_dot hs

/-- C7 witness: a concrete double call saves then skips. -/
theorem claim_c7_save_poster_witness :
    savePoster "tt0000004" "http://img0example/poster.jpg"
      ⟨posterPath "tt0000004" "http://img0example/poster.jpg" :: [], 0 + 1⟩ =
      (false, ⟨posterPath "tt0000004" "http://img0example/poster.jpg" :: [], 0 + 1⟩) :=
  (claim_c7_save_poster "tt0000004" "http://img0example/poster.jpg" ⟨[], 0⟩
    (by decide)).2.1

/-- C8: in a driver run where one key (present once in the list) fails and
every other key scrapes, the failed key lands in failed_list exactly once, the
loop calls imdb_scrape exactly once per listed key in order (no retry), every
other key's record is in the batch, no batch record carries the failed key, and
the batch is exactly one row short of the key list. -/
theorem claim_c8_batch (world : String → Except PyError Doc) (keys : List String)
    (k : String) (e : PyError)
    (hk : imdb_scrape world k = Except.error e)
    (h1 : keys.count k = 1)
    (hothers : ∀ t ∈ keys, t ≠ k → ∃ r, imdb_scrape world t = Except.ok r) :
    (batchRun world keys).failed_list.count k = 1 ∧
    (batchRun world keys).calls = keys ∧
    (∀ t ∈ keys, t ≠ k → ∃ r, imdb_scrape world t = Except.ok r ∧
      r ∈ (batchRun world keys).annual_movie_list) ∧
    (∀ r ∈ (batchRun world keys).annual_movie_list, r.tconst ≠ k) ∧
    (batchRun world keys).annual_movie_list.length + 1 = keys.length := by
  have hfail : (batchRun world keys).failed_list =
      keys.filter (fun t => !(imdb_scrape world t).isOk) := by
    rw [batchRun, runBatch_failed]
    rfl
  have hann : (batchRun world keys).annual_movie_list =
      keys.filterMap (fun t => (imdb_scrape world t).toOption) := by
    rw [batchRun, runBatch_annual]
    rfl
  have hpk : (!(imdb_scrape world k).isOk) = true := by
    rw [hk]
    rfl
  refine ⟨?_, ?_, ?_, ?_, ?_⟩
  · rw [hfail]
    have hcf := List.count_filter (l := keys)
      (p := fun t => !(imdb_scrape world t).isOk) (a := k) hpk
    rw [hcf]
    exact h1
  · rw [batchRun, runBatch_calls]
    rfl
  · intro t ht hne
    obtain ⟨r, hr⟩ := hothers t ht hne
    refine ⟨r, hr, ?_⟩
    rw [hann]
    exact List.mem_filterMap.mpr ⟨t, ht, by rw [hr]; rfl⟩
  · intro r hr
    rw [hann] at hr
    obtain ⟨t, ht, hft⟩ := List.mem_filterMap.mp hr
    have hok : imdb_scrape world t = Except.ok r := by
      cases hw : imdb_scrape world t with
      | error e' => rw [hw] at hft; cases hft
      | ok r' =>
        rw [hw] at hft
        obtain rfl := Option.some.inj hft
        rfl
    have htc : r.tconst = t := tconst_of_scrape_ok hok
    intro hckk
    rw [hckk] at htc
    rw [← htc] at hok
    rw [hok] at hk
    cases hk
  · have hsz := runBatch_sizes (imdb_scrape world) keys batchStart
    have hflen : (batchRun world keys).failed_list.length = 1 := by
      rw [hfail]
      have hcongr : keys.filter (fun t => !(imdb_scrape world t).isOk) =
          keys.filter (fun t => t == k) := by
        apply List.filter_congr
        intro t ht
        by_cases hTK : t = k
        · rw [hTK, hpk, show (k == k) = true by simp]
        · obtain ⟨r, hr⟩ := hothers t ht hTK
          rw [hr]
          simp [Except.isOk, Except.toBool, hTK]
      rw [hcongr, ← List.countP_eq_length_filter, ← List.count_eq_countP]
      exact h1
    have h0 : batchStart.annual_movie_list.length = 0 := rfl
    have h0' : batchStart.failed_list.length = 0 := rfl
    rw [show batchRun world keys = runBatch (imdb_scrape world) keys batchStart
      from rfl] at hflen ⊢
    omega

/-- C8 witness: in the three-key fixture run where the middle key's fetch
fails, that key appears exactly once in the failure list. -/
theorem claim_c8_batch_witness :
    (batchRun c8World c8Keys).failed_list.count "tt0000002" = 1 :=
  (claim_c8_batch c8World c8Keys "tt0000002" PyError.fetchError rfl (by decide)
    (by
      intro t ht hne
      rw [show c8Keys = ["tt0000001", "tt0000002", "tt0000003"] from rfl] at ht
      simp only [List.mem_cons, List.not_mem_nil, or_false] at ht
      rcases ht with rfl | rfl | rfl
      · exact ⟨{ jpRec with tconst := "tt0000001" }, rfl⟩
      · exact absurd rfl hne
      · exact ⟨{ jpRec with tconst := "tt0000003" }, rfl⟩)).1
